import Mathlib

/-!
Verification of the Wegent task/subtask lifecycle backend.

Shallow embedding of the relevant code paths of
`backend/app/services/adapters/task_kinds.py`,
`backend/app/api/endpoints/adapter/chat.py` and
`backend/app/services/shared_task.py`.

Conventions used throughout:
* database documents/rows are Lean structures with the source's column names;
* Python exceptions (`HTTPException`, `KeyError`) become an `Except PyErr` result;
* timestamps are natural numbers (seconds);
* status enums are the status strings the source compares against.
-/

namespace Wegent

/-- Python exceptions raised by the modelled code: FastAPI `HTTPException`
with a status code and detail, or an unhandled `KeyError` on a dict index. -/
inductive PyErr where
  | http (code : Nat) (detail : String)
  | keyErr (key : String)
deriving Repr, DecidableEq

/-- `labels.get(k)`: first value bound to key `k` in a string-keyed mapping,
modelled as an association list. -/
def lookupLabel (labels : List (String × String)) (k : String) : Option String :=
  (labels.find? (fun p => p.1 == k)).map (fun p => p.2)

/-- Python truthiness of an optional dict (`None` and `{}` are falsy). -/
def labelsTruthy : Option (List (String × String)) → Bool
  | none => false
  | some l => !l.isEmpty

/-- `(labels and labels.get(k)) or default` — Python's or-chain defaulting:
a missing mapping, a missing key and an empty-string value all fall back. -/
def labelOr (labels : Option (List (String × String))) (k dflt : String) : String :=
  if labelsTruthy labels then
    match lookupLabel (labels.getD []) k with
    | some v => if v = "" then dflt else v
    | none => dflt
  else dflt

/-- `(labels and labels.get(k)) or None` for the `source` label. -/
def labelOrNone (labels : Option (List (String × String))) (k : String) : Option String :=
  if labelsTruthy labels then
    match lookupLabel (labels.getD []) k with
    | some v => if v = "" then none else some v
    | none => none
  else none

/-- Python `len(s.encode("utf-8"))`: UTF-8 byte length of a string,
the sum of the UTF-8 sizes of its code points. -/
def charUtf8Size (c : Char) : Nat :=
  if c.toNat < 0x80 then 1
  else if c.toNat < 0x800 then 2
  else if c.toNat < 0x10000 then 3
  else 4

def utf8Len (s : String) : Nat :=
  (s.data.map charUtf8Size).sum

/-- A concrete prompt whose UTF-8 encoding is 60,001 bytes. -/
def longPrompt : String :=
  String.mk (List.replicate 60001 'a')

namespace TaskKinds

/-! ## Subtask chain construction (`TaskKindsService._create_subtasks`)

`existing_subtasks` is the query result ordered by `message_id` descending;
a team member is represented by its resolved bot id (all claims operate on
teams whose bots resolve, and the empty-team check is kept). -/

/-- A pre-existing subtask row, with the fields `_create_subtasks` and
`_get_pipeline_executor_info` read. -/
structure PrevSub where
  message_id : Nat
  role : String
  executor_namespace : String
  executor_name : String
deriving Repr, DecidableEq

/-- A newly created subtask row (the fields the claims are about). -/
structure SubRec where
  role : String
  bot_ids : List Nat
  message_id : Nat
  parent_id : Nat
  status : String
  progress : Nat
  prompt : String
  executor_namespace : String
  executor_name : String
deriving Repr, DecidableEq

/-- The claimed chain invariant: each subtask's `parent_id` equals the
`message_id` of the immediately preceding subtask in the group. -/
def chainOk : List SubRec → Bool
  | [] => true
  | [_] => true
  | a :: b :: rest => (b.parent_id == a.message_id) && chainOk (b :: rest)

/-- Scan prior subtasks (most recent first) up to the previous USER boundary,
collecting ASSISTANT executor bindings. -/
def collectFirstGroup : List PrevSub → List (String × String)
  | [] => []
  | s :: rest =>
    if s.role = "USER" then []
    else if s.role = "ASSISTANT" then
      (s.executor_namespace, s.executor_name) :: collectFirstGroup rest
    else collectFirstGroup rest

/-- `TaskKindsService._get_pipeline_executor_info`. -/
def _get_pipeline_executor_info (existing : List PrevSub) : List (String × String) :=
  (collectFirstGroup existing).reverse

/-- The `for i, member in enumerate(team_crd.spec.members)` loop of the
pipeline branch: one ASSISTANT subtask per member, advancing both
`next_message_id` and `parent_id` by one per iteration. -/
def pipelineLoop (title : String) (execInfos : List (String × String)) :
    List Nat → Nat → Nat → Nat → List SubRec
  | [], _, _, _ => []
  | botId :: members, i, nextMsgId, parentId =>
    { role := "ASSISTANT"
      bot_ids := [botId]
      message_id := nextMsgId
      parent_id := parentId
      status := "PENDING"
      progress := 0
      prompt := ""
      executor_namespace := ((execInfos.get? i).map (fun p => p.1)).getD ""
      executor_name := ((execInfos.get? i).map (fun p => p.2)).getD "" } ::
    pipelineLoop title execInfos members (i + 1) (nextMsgId + 1) (parentId + 1)

/-- `TaskKindsService._create_subtasks`: one USER subtask, then either one
ASSISTANT subtask per member (pipeline) or a single joint ASSISTANT subtask. -/
def _create_subtasks (collaborationModel : String) (memberBotIds : List Nat)
    (existing : List PrevSub) (title userPrompt : String) :
    Except PyErr (List SubRec) :=
  if memberBotIds.isEmpty then
    .error (.http 400 "No members configured in team")
  else
  let nextMsgId : Nat := match existing.head? with
    | some s => s.message_id + 1
    | none => 1
  let parentId : Nat := match existing.head? with
    | some s => s.message_id
    | none => 0
  let userSub : SubRec :=
    { role := "USER"
      bot_ids := memberBotIds
      message_id := nextMsgId
      parent_id := parentId
      status := "COMPLETED"
      progress := 0
      prompt := userPrompt
      executor_namespace := ""
      executor_name := "" }
  -- `if parent_id == 0: parent_id = 1` / `next_message_id = next_message_id + 1`
  let parentId' : Nat := if parentId = 0 then 1 else parentId
  let nextMsgId' : Nat := nextMsgId + 1
  if collaborationModel = "pipeline" then
    let execInfos := _get_pipeline_executor_info existing
    .ok (userSub :: pipelineLoop title execInfos memberBotIds 0 nextMsgId' parentId')
  else
    let execBinding : String × String := match existing.head? with
      | some s => (s.executor_namespace, s.executor_name)
      | none => ("", "")
    let assistantSub : SubRec :=
      { role := "ASSISTANT"
        bot_ids := memberBotIds
        message_id := nextMsgId'
        parent_id := parentId'
        status := "PENDING"
        progress := 0
        prompt := ""
        executor_namespace := execBinding.1
        executor_name := execBinding.2 }
    .ok [userSub, assistantSub]

/-! ## Task status documents and partial update (`TaskKindsService.update_task`) -/

/-- The `status` section of a Task document (`task_crd.status`). -/
structure TaskStatusRec where
  status : String
  progress : Nat
  result : Option String
  errorMessage : String
  updatedAt : Nat
  completedAt : Option Nat
deriving Repr, DecidableEq

/-- The `spec` section of a Task document (the fields `update_task` touches). -/
structure TaskSpecRec where
  title : String
  prompt : String
deriving Repr, DecidableEq

/-- A Workspace document's repository section. -/
structure WsRepo where
  gitUrl : String
  gitRepo : String
  gitRepoId : Nat
  gitDomain : String
  branchName : String
deriving Repr, DecidableEq

/-- `obj_in.model_dump(exclude_unset=True)`: each field is `some v` exactly
when the client supplied it (so `result` can be supplied as null). -/
structure TaskUpdateData where
  title : Option String := none
  prompt : Option String := none
  status : Option String := none
  progress : Option Nat := none
  result : Option (Option String) := none
  error_message : Option String := none
  git_url : Option String := none
  git_repo : Option String := none
  git_repo_id : Option Nat := none
  git_domain : Option String := none
  branch_name : Option String := none
deriving Repr, DecidableEq

def finalStates : List String := ["COMPLETED", "FAILED", "CANCELLED", "DELETE"]

def nonFinalStates : List String := ["PENDING", "RUNNING", "CANCELLING"]

/-- The status-transition guard of `update_task` (lines 862-897):
from CANCELLING only CANCELLED/FAILED are accepted; a final state is never
overwritten by a non-final one; everything else is taken as given. -/
def guardedStatus (currentStatus newStatus : String) : String :=
  if currentStatus = "CANCELLING" then
    if newStatus ∉ ["CANCELLED", "FAILED"] then currentStatus else newStatus
  else if currentStatus ∈ finalStates ∧ newStatus ∈ nonFinalStates then
    currentStatus
  else newStatus

/-- `obj_in.prompt is not None and len(obj_in.prompt.encode("utf-8")) > 60000`. -/
def promptTooLong : Option String → Bool
  | none => false
  | some p => utf8Len p > 60000

/-- Application of the supplied status-section fields (lines 862-903):
status through the guard, then progress, result and error message. -/
def applyStatusFields (u : TaskUpdateData) (s : TaskStatusRec) : TaskStatusRec :=
  let s1 := match u.status with
    | some ns => { s with status := guardedStatus s.status ns }
    | none => s
  let s2 := { s1 with progress := u.progress.getD s1.progress }
  let s3 := match u.result with
    | some r => { s2 with result := r }
    | none => s2
  { s3 with errorMessage := u.error_message.getD s3.errorMessage }

/-- Timestamp stamping (lines 947-955): `updatedAt` always; `completedAt`
keys off the requested status, whether or not the guard let it through. -/
def applyTimestamps (now : Nat) (u : TaskUpdateData) (s : TaskStatusRec) : TaskStatusRec :=
  let s' := { s with updatedAt := now }
  match u.status with
  | some ns =>
    if ns ∈ ["COMPLETED", "FAILED", "CANCELLED"] then
      { s' with completedAt := some now }
    else s'
  | none => s'

/-- Workspace git-field update (lines 905-945): applied only when at least
one git field was supplied and the Workspace document is found. -/
def applyGit (u : TaskUpdateData) (ws : Option WsRepo) : Option WsRepo :=
  if u.git_url.isSome ∨ u.git_repo.isSome ∨ u.git_repo_id.isSome ∨
      u.git_domain.isSome ∨ u.branch_name.isSome then
    ws.map (fun w =>
      { gitUrl := u.git_url.getD w.gitUrl
        gitRepo := u.git_repo.getD w.gitRepo
        gitRepoId := u.git_repo_id.getD w.gitRepoId
        gitDomain := u.git_domain.getD w.gitDomain
        branchName := u.branch_name.getD w.branchName })
  else ws

/-- The straight-line mutation part of `update_task` (everything after the
prompt-length check). -/
def update_task_apply (now : Nat) (spec : TaskSpecRec) (st : Option TaskStatusRec)
    (ws : Option WsRepo) (u : TaskUpdateData) :
    TaskSpecRec × Option TaskStatusRec × Option WsRepo :=
  ({ title := u.title.getD spec.title, prompt := u.prompt.getD spec.prompt },
   (st.map (applyStatusFields u)).map (applyTimestamps now u),
   applyGit u ws)

/-- `TaskKindsService.update_task`, on a Task found for the user: applies each
supplied field, runs the status guard, updates the bound Workspace when git
fields are supplied, and stamps timestamps.  Raises 400 on an over-long
prompt; an illegal status transition is dropped, never an error. -/
def update_task (now : Nat) (spec : TaskSpecRec) (st : Option TaskStatusRec)
    (ws : Option WsRepo) (u : TaskUpdateData) :
    Except PyErr (TaskSpecRec × Option TaskStatusRec × Option WsRepo) :=
  if promptTooLong u.prompt then
    .error (.http 400
      "Prompt content is too long. Maximum allowed size is 60000 bytes in UTF-8 encoding.")
  else .ok (update_task_apply now spec st ws u)

/-! ## Task id allocation (`create_task_id` / `validate_task_id`)

The kinds table is modelled as a list of rows plus the auto-increment
counter; only the columns those two functions read are kept. -/

/-- A row of the `kinds` table. -/
structure KindRow where
  id : Nat
  user_id : Nat
  kind : String
  is_active : Bool
deriving Repr, DecidableEq

/-- The kinds table with its auto-increment counter. -/
structure KindStore where
  nextId : Nat
  rows : List KindRow
deriving Repr, DecidableEq

/-- `TaskKindsService.create_task_id`: reuse the user's pending Placeholder
row if one exists, else insert a fresh inactive Placeholder and return the
auto-incremented id. -/
def create_task_id (s : KindStore) (userId : Nat) : Nat × KindStore :=
  match s.rows.find? (fun r =>
      r.user_id == userId && r.kind == "Placeholder" && r.is_active == false) with
  | some r => (r.id, s)
  | none =>
    (s.nextId,
     { nextId := s.nextId + 1
       rows := s.rows ++ [{ id := s.nextId, user_id := userId,
                            kind := "Placeholder", is_active := false }] })

/-- `TaskKindsService.validate_task_id`: a Placeholder is consumed (deleted)
and valid; any other kind is valid as-is; a missing id is invalid. -/
def validate_task_id (s : KindStore) (taskId : Nat) : Bool × KindStore :=
  match s.rows.find? (fun r => r.id == taskId) with
  | some r =>
    if r.kind = "Placeholder" then
      (true, { s with rows := s.rows.filter (fun r => r.id ≠ taskId) })
    else (true, s)
  | none => (false, s)

/-! ## `TaskKindsService.create_task_or_append`

Database lookups that the claims do not exercise are abstracted into an
environment record carrying their results: team resolution (`teamFound`),
the existing-Task lookup (`existing`), the prior subtasks of the task, and
the expiry settings. -/

/-- The existing active Task row, when `task_id` resolves to one. -/
structure ExistingTask where
  status : Option TaskStatusRec
  labels : Option (List (String × String))
  updated_at : Nat
deriving Repr, DecidableEq

/-- Collaborator results and settings consumed by `create_task_or_append`. -/
structure CreateEnv where
  now : Nat
  appendChatExpireHours : Nat
  appendCodeExpireHours : Nat
  taskIdValid : Bool
  existing : Option ExistingTask
  teamFound : Bool
  collaborationModel : String
  memberBotIds : List Nat
  prevSubtasks : List PrevSub
deriving Repr, DecidableEq

/-- The observable outcome of a successful `create_task_or_append`: the
resulting Task status document, whether a Workspace was created, and the
subtask group appended by `_create_subtasks`. -/
structure CreateOutcome where
  taskStatus : Option TaskStatusRec
  workspaceCreated : Bool
  newSubtasks : List SubRec
deriving Repr, DecidableEq

/-- `TaskKindsService.create_task_or_append`.  The existing-task branch
checks status, the `autoDeleteExecutor` label (a bare dict index — a missing
key on a non-empty label map raises `KeyError`), expiry and team resolution,
then resets the task to PENDING; the new-task branch resolves the team,
enforces the 60,000-byte prompt cap, and creates Workspace and Task
documents.  Both branches then append a subtask group. -/
def create_task_or_append (env : CreateEnv) (prompt : String) (title : String) :
    Except PyErr CreateOutcome :=
  if !env.taskIdValid then
    .error (.http 400 "Invalid task_id: does not exist in session")
  else
  match env.existing with
  | some ex =>
    let taskStatus : String := match ex.status with
      | some s => s.status
      | none => "PENDING"
    if taskStatus = "RUNNING" then
      .error (.http 400 "Task is still running, please wait for it to complete")
    else if taskStatus ∈ ["DELETE"] then
      .error (.http 400 "Task has delete, please create a new task")
    else if taskStatus ∉ ["COMPLETED", "FAILED", "CANCELLED"] then
      .error (.http 400 "Task is in progress, please wait for it to complete")
    -- `task_crd.metadata.labels and task_crd.metadata.labels["autoDeleteExecutor"] == "true"`
    else match
      (if labelsTruthy ex.labels then
        match lookupLabel (ex.labels.getD []) "autoDeleteExecutor" with
        | none => some (PyErr.keyErr "autoDeleteExecutor")
        | some v =>
          if v = "true" then
            some (PyErr.http 400 "task already clear, please create a new task")
          else none
       else none) with
    | some e => .error e
    | none =>
      let taskType := labelOr ex.labels "taskType" "chat"
      let expireHours := if taskType = "code" then env.appendCodeExpireHours
        else env.appendChatExpireHours
      let taskShellSource := labelOrNone ex.labels "source"
      if taskShellSource ≠ some "chat_shell" ∧
          env.now - ex.updated_at > expireHours * 3600 then
        .error (.http 400 "task has expired")
      else if !env.teamFound then
        .error (.http 404 "Team not found, it may be deleted or not shared")
      else
        let newStatus : Option TaskStatusRec :=
          ex.status.map (fun s => { s with status := "PENDING", progress := 0 })
        match _create_subtasks env.collaborationModel env.memberBotIds
          env.prevSubtasks title prompt with
        | .error e => .error e
        | .ok subs =>
          .ok { taskStatus := newStatus, workspaceCreated := false, newSubtasks := subs }
  | none =>
    if !env.teamFound then
      .error (.http 404 "Team not found, it may be deleted or not shared")
    else if prompt ≠ "" ∧ utf8Len prompt > 60000 then
      .error (.http 400
        "Prompt content is too long. Maximum allowed size is 60000 bytes in UTF-8 encoding.")
    else
      let title' := if title = "" ∧ prompt ≠ "" then
          if prompt.length > 50 then prompt.take 50 ++ "..." else prompt.take 50
        else title
      let newStatus : TaskStatusRec :=
        { status := "PENDING", progress := 0, result := none, errorMessage := "",
          updatedAt := env.now, completedAt := none }
      match _create_subtasks env.collaborationModel env.memberBotIds
        env.prevSubtasks title' prompt with
      | .error e => .error e
      | .ok subs =>
        .ok { taskStatus := some newStatus, workspaceCreated := true, newSubtasks := subs }

end TaskKinds

namespace Chat

/-! ## Streaming endpoints (`backend/app/api/endpoints/adapter/chat.py`) -/

/-- A subtask's structured result; `value` is the rendered content
(`subtask.result.get("value", "")`). -/
structure ResVal where
  value : String
deriving Repr, DecidableEq

/-- One SSE `data:` payload of the resume protocol. -/
structure SseEvent where
  offset : Nat
  content : String
  done : Bool
  result : Option ResVal
deriving Repr, DecidableEq

/-- `generate_completed` inside `_handle_resume_stream` (lines 822-847): the
whole reply stream for a COMPLETED subtask, as a pure function of the stored
result and the supplied offset — the tail of the content when the offset is
inside it, then the terminal event. -/
def generate_completed (res : Option ResVal) (offset : Nat) : List SseEvent :=
  let content : String := match res with
    | some r => r.value
    | none => ""
  (if offset < content.length then
    [{ offset := offset, content := content.drop offset, done := false, result := none }]
   else []) ++
  [{ offset := content.length, content := "", done := true, result := res }]

/-- A Subtask row, with the columns `cancel_chat` reads and writes. -/
structure SubRow where
  id : Nat
  task_id : Nat
  status : String
  progress : Nat
  result : Option ResVal
  error_message : String
  completed_at : Option Nat
  updated_at : Nat
deriving Repr, DecidableEq

/-- The parent Task document as `cancel_chat` sees it (its status section
may be absent, in which case only the timestamps change). -/
structure TaskDoc where
  status : Option Wegent.TaskKinds.TaskStatusRec
  updated_at : Nat
deriving Repr, DecidableEq

/-- The JSON body returned by the cancel endpoint. -/
structure CancelResp where
  success : Bool
  message : String
deriving Repr, DecidableEq

/-- Python truthiness of `request.partial_content` (`None` and `""` falsy). -/
def strOptTruthy : Option String → Bool
  | none => false
  | some s => s ≠ ""

/-- `cancel_chat` (lines 1130-1189), after the ownership lookup succeeded:
a subtask outside PENDING/RUNNING is left untouched with a
`success: false` reply; otherwise the subtask is finalized as COMPLETED with
the partial content as result, and the parent Task (when found active) is
marked COMPLETED with its error message cleared.  The Redis cancel broadcast
is fire-and-forget and carries no state, so it is not modelled. -/
def cancel_chat (now : Nat) (sub : SubRow) (task : Option TaskDoc)
    (partContent : Option String) : SubRow × Option TaskDoc × CancelResp :=
  if sub.status ∉ ["PENDING", "RUNNING"] then
    (sub, task, { success := false,
                  message := "Subtask is already in " ++ sub.status ++ " state" })
  else
    let newResult : ResVal :=
      if strOptTruthy partContent then { value := partContent.getD "" }
      else { value := "" }
    let sub' : SubRow :=
      { sub with status := "COMPLETED", progress := 100,
                 completed_at := some now, updated_at := now,
                 error_message := "", result := some newResult }
    let task' : Option TaskDoc := task.map (fun t =>
      { status := t.status.map (fun s =>
          { s with status := "COMPLETED", errorMessage := "",
                   updatedAt := now, completedAt := some now })
        updated_at := now })
    (sub', task', { success := true, message := "Chat stopped successfully" })

end Chat

namespace SharedTaskSvc

/-! ## Task sharing / copy engine (`backend/app/services/shared_task.py`) -/

/-- An original Subtask row, with the columns `_copy_task_with_subtasks`
reads (`original_subtasks` is ordered by `message_id`). -/
structure OrigSub where
  id : Nat
  title : String
  bot_ids : List Nat
  role : String
  executor_namespace : String
  executor_name : String
  prompt : String
  message_id : Nat
  parent_id : Nat
  status : String
  progress : Nat
  result : Option String
  error_message : String
deriving Repr, DecidableEq

/-- A copied Subtask row, with the columns the copy loop writes. -/
structure CopySub where
  id : Nat
  user_id : Nat
  task_id : Nat
  team_id : Nat
  title : String
  bot_ids : List Nat
  role : String
  executor_namespace : String
  executor_name : String
  executor_deleted_at : Bool
  prompt : String
  message_id : Nat
  parent_id : Nat
  status : String
  progress : Nat
  result : Option String
  error_message : String
  completed_at : Nat
deriving Repr, DecidableEq

/-- A subtask attachment row. -/
structure Attach where
  subtask_id : Nat
  user_id : Nat
  original_filename : String
  file_extension : String
  file_size : Nat
  mime_type : String
  binary_data : List Nat
  image_base64 : String
  extracted_text : String
  text_length : Nat
  status : String
  error_message : String
  created_at : Nat
deriving Repr, DecidableEq

/-- The body of the subtask copy loop (lines 542-562): a fresh-identity copy
with status forced to COMPLETED, progress 100 and `executor_name` cleared;
`executor_namespace` is taken from the original. -/
def copySubtask (now newUserId newTaskId newTeamId newId : Nat) (s : OrigSub) : CopySub :=
  { id := newId
    user_id := newUserId
    task_id := newTaskId
    team_id := newTeamId
    title := s.title
    bot_ids := s.bot_ids
    role := s.role
    executor_namespace := s.executor_namespace
    executor_name := ""
    executor_deleted_at := false
    prompt := s.prompt
    message_id := s.message_id
    parent_id := s.parent_id
    status := "COMPLETED"
    progress := 100
    result := s.result
    error_message := s.error_message
    completed_at := now }

/-- The attachment copy (lines 574-590): every content column duplicated,
rebound to the copied subtask and the target user. -/
def copyAttachment (now newUserId newSubId : Nat) (a : Attach) : Attach :=
  { a with subtask_id := newSubId, user_id := newUserId, created_at := now }

/-- The subtask query filter (line 535): every subtask of the original task
whose status is not DELETE, in `message_id` order. -/
def keptSubtasks (subs : List OrigSub) : List OrigSub :=
  subs.filter (fun s => s.status ≠ "DELETE")

/-- The `for original_subtask in original_subtasks` loop: each kept subtask
is copied under the next fresh id (the per-row `db.flush()` is modelled by
the sequential id counter), together with its attachments. -/
def copyLoop (now newUserId newTaskId newTeamId : Nat) (atts : List Attach) :
    Nat → List OrigSub → List CopySub × List Attach
  | _, [] => ([], [])
  | nextId, s :: rest =>
    let c := copySubtask now newUserId newTaskId newTeamId nextId s
    let cas := (atts.filter (fun a => a.subtask_id == s.id)).map
      (copyAttachment now newUserId nextId)
    let (cs, ras) := copyLoop now newUserId newTaskId newTeamId atts (nextId + 1) rest
    (c :: cs, cas ++ ras)

/-- `SharedTaskService._copy_task_with_subtasks`, subtask/attachment part
(lines 530-592): the query keeps the original task's subtasks whose status
is not DELETE, and the loop copies each with its attachments. -/
def _copy_task_with_subtasks (now newUserId newTaskId newTeamId baseId : Nat)
    (subs : List OrigSub) (atts : List Attach) : List CopySub × List Attach :=
  copyLoop now newUserId newTaskId newTeamId atts baseId (keptSubtasks subs)

end SharedTaskSvc

namespace ShareToken

/-! ## Share tokens (`generate_share_token` / `decode_share_token`)

Strings are modelled as character lists.  The AES-CBC cipher (pad, encrypt,
base64) lives in the external `cryptography` library and is out of scope per
the spec, so it is a parameter `E` with decryption `D`; its contract — that
decryption with the same key inverts encryption and that the base64
ciphertext is ASCII — appears as hypotheses of the round-trip theorem.
`urllib.parse.quote`/`unquote` (safe characters per the default `safe='/'`)
and the `"{user_id}#{task_id}"` formatting and parsing are modelled from the
source; percent-encoding is modelled on the ASCII range, which covers every
base64 ciphertext. -/

/-- Characters `urllib.parse.quote` leaves unescaped with the default
`safe='/'`: ASCII alphanumerics, `_.-~` and `/`. -/
def quoteSafe (c : Char) : Bool :=
  (('A' ≤ c ∧ c ≤ 'Z') ∨ ('a' ≤ c ∧ c ≤ 'z') ∨ ('0' ≤ c ∧ c ≤ '9')) ∨
    c ∈ ['_', '.', '-', '~', '/']

/-- Upper-case hex digit of a value below 16. -/
def hexDigit (n : Nat) : Char :=
  if n < 10 then Char.ofNat (48 + n) else Char.ofNat (55 + n)

/-- Value of a hex digit character, either case. -/
def hexVal (c : Char) : Option Nat :=
  if '0' ≤ c ∧ c ≤ '9' then some (c.toNat - 48)
  else if 'A' ≤ c ∧ c ≤ 'F' then some (c.toNat - 55)
  else if 'a' ≤ c ∧ c ≤ 'f' then some (c.toNat - 87)
  else none

/-- Percent-encoding of one character (ASCII range). -/
def quoteChar (c : Char) : List Char :=
  if quoteSafe c then [c]
  else ['%', hexDigit (c.toNat / 16), hexDigit (c.toNat % 16)]

/-- `urllib.parse.quote` with `safe='/'` on an ASCII string. -/
def quote (l : List Char) : List Char :=
  l.flatMap quoteChar

/-- `urllib.parse.unquote` on an ASCII string: decode `%HH` escapes, leave a
`%` that is not followed by two hex digits as-is. -/
def unquote : List Char → List Char
  | [] => []
  | c :: rest =>
    if c = '%' then
      match rest with
      | h1 :: h2 :: rest2 =>
        match hexVal h1, hexVal h2 with
        | some a, some b => Char.ofNat (16 * a + b) :: unquote rest2
        | _, _ => c :: unquote (h1 :: h2 :: rest2)
      | r => c :: unquote r
    else c :: unquote rest
termination_by l => l.length
decreasing_by all_goals simp [List.length_cons] <;> omega

/-- Python `str` of a non-negative integer (decimal digits); the fuel
argument (any bound above the number of digits) keeps the recursion
structural so that concrete tokens evaluate. -/
def toDigitsAux : Nat → Nat → List Char
  | 0, _ => []
  | fuel + 1, n =>
    if n < 10 then [Char.ofNat (48 + n)]
    else toDigitsAux fuel (n / 10) ++ [Char.ofNat (48 + n % 10)]

def toDigits (n : Nat) : List Char :=
  toDigitsAux (n + 1) n

/-- Value of a decimal digit character. -/
def digitVal (c : Char) : Option Nat :=
  if '0' ≤ c ∧ c ≤ '9' then some (c.toNat - 48) else none

/-- One digit of the accumulating decimal parse. -/
def pyIntStep (acc : Option Nat) (c : Char) : Option Nat :=
  acc.bind (fun a => (digitVal c).map (fun d => 10 * a + d))

/-- Python `int(s)` on a digit string; any non-digit raises `ValueError`,
modelled as `none`. -/
def pyInt (l : List Char) : Option Nat :=
  if l.isEmpty then none
  else l.foldl pyIntStep (some 0)

/-- `share_data_str.split("#", 1)` guarded by `"#" in share_data_str`:
the parts before and after the first `#`, or `none` when there is none. -/
def splitHash : List Char → Option (List Char × List Char)
  | [] => none
  | c :: rest =>
    if c = '#' then some ([], rest)
    else (splitHash rest).map (fun p => (c :: p.1, p.2))

/-- `SharedTaskService.generate_share_token`: format `"{user_id}#{task_id}"`,
encrypt (abstract `E` = pad + AES-CBC + base64), then URL-escape. -/
def generate_share_token (E : List Char → List Char) (userId taskId : Nat) : List Char :=
  quote (E (toDigits userId ++ '#' :: toDigits taskId))

/-- `SharedTaskService.decode_share_token` without a database session:
URL-unescape, decrypt (abstract `D`), split at the first `#`, parse both
sides as integers; any failure yields `none`. -/
def decode_share_token (D : List Char → Option (List Char)) (token : List Char) :
    Option (Nat × Nat) :=
  match D (unquote token) with
  | none => none
  | some data =>
    match splitHash data with
    | none => none
    | some (a, b) =>
      match pyInt a, pyInt b with
      | some userId, some taskId => some (userId, taskId)
      | _, _ => none

end ShareToken

/-! # Theorems -/

/-! ## C1 — pipeline chain integrity -/

/-- C1: for a pipeline append, exactly one USER and one ASSISTANT subtask per
member are created with message_id increasing by 1, and on a fresh task the
chain is USER(1,0), ASSISTANT(2,1), ASSISTANT(3,2) as claimed; but on a
follow-up append (existing max message_id 3) the code produces
ASSISTANT subtasks with parent_id 3 and 4, the first of which skips the new
USER subtask (message_id 4), so the parent chain of the claim is broken. -/
theorem c1_pipeline_chain_fresh_ok_followup_broken :
    TaskKinds._create_subtasks "pipeline" [10, 11] [] "T" "p" =
      .ok [⟨"USER", [10, 11], 1, 0, "COMPLETED", 0, "p", "", ""⟩,
           ⟨"ASSISTANT", [10], 2, 1, "PENDING", 0, "", "", ""⟩,
           ⟨"ASSISTANT", [11], 3, 2, "PENDING", 0, "", "", ""⟩] ∧
    TaskKinds.chainOk
      [(⟨"USER", [10, 11], 1, 0, "COMPLETED", 0, "p", "", ""⟩ : TaskKinds.SubRec),
       ⟨"ASSISTANT", [10], 2, 1, "PENDING", 0, "", "", ""⟩,
       ⟨"ASSISTANT", [11], 3, 2, "PENDING", 0, "", "", ""⟩] = true ∧
    TaskKinds._create_subtasks "pipeline" [10, 11]
        [⟨3, "ASSISTANT", "nsB", "exB"⟩, ⟨2, "ASSISTANT", "nsA", "exA"⟩,
         ⟨1, "USER", "", ""⟩] "T" "p" =
      .ok [⟨"USER", [10, 11], 4, 3, "COMPLETED", 0, "p", "", ""⟩,
           ⟨"ASSISTANT", [10], 5, 3, "PENDING", 0, "", "nsA", "exA"⟩,
           ⟨"ASSISTANT", [11], 6, 4, "PENDING", 0, "", "nsB", "exB"⟩] ∧
    TaskKinds.chainOk
      [(⟨"USER", [10, 11], 4, 3, "COMPLETED", 0, "p", "", ""⟩ : TaskKinds.SubRec),
       ⟨"ASSISTANT", [10], 5, 3, "PENDING", 0, "", "nsA", "exA"⟩,
       ⟨"ASSISTANT", [11], 6, 4, "PENDING", 0, "", "nsB", "exB"⟩] = false := by
  refine ⟨rfl, ?_, rfl, ?_⟩ <;> decide

/-! ## C2 — update_task status guard -/

/-- The guard drops the requested status exactly in the two protected cases. -/
theorem guardedStatus_drop (cs ns : String)
    (h : (cs = "CANCELLING" ∧ ns ∉ ["CANCELLED", "FAILED"]) ∨
         (cs ∈ TaskKinds.finalStates ∧ ns ∈ TaskKinds.nonFinalStates)) :
    TaskKinds.guardedStatus cs ns = cs := by
  rcases h with ⟨hc, hn⟩ | ⟨hc, hn⟩
  · subst hc
    unfold TaskKinds.guardedStatus
    rw [if_pos rfl, if_pos hn]
  · have hne : cs ≠ "CANCELLING" := by
      intro hcs
      subst hcs
      simp [TaskKinds.finalStates] at hc
    unfold TaskKinds.guardedStatus
    rw [if_neg hne, if_pos ⟨hc, hn⟩]

/-- Timestamp stamping does not touch the guarded fields. -/
theorem applyTimestamps_fields (now : Nat) (u : TaskKinds.TaskUpdateData)
    (s : TaskKinds.TaskStatusRec) :
    (TaskKinds.applyTimestamps now u s).status = s.status ∧
    (TaskKinds.applyTimestamps now u s).progress = s.progress ∧
    (TaskKinds.applyTimestamps now u s).result = s.result ∧
    (TaskKinds.applyTimestamps now u s).errorMessage = s.errorMessage := by
  unfold TaskKinds.applyTimestamps
  cases u.status with
  | none => exact ⟨rfl, rfl, rfl, rfl⟩
  | some ns =>
    simp only []
    split <;> exact ⟨rfl, rfl, rfl, rfl⟩

/-- C2: a status update from CANCELLING to anything but CANCELLED/FAILED, or
from a terminal state to a non-terminal one, leaves the stored status
unchanged while every other supplied field is still applied, and no error is
raised. -/
theorem c2_update_task_guard (now : Nat) (spec : TaskKinds.TaskSpecRec)
    (ws : Option TaskKinds.WsRepo) (u : TaskKinds.TaskUpdateData)
    (s : TaskKinds.TaskStatusRec) (ns : String) (hns : u.status = some ns)
    (hguard : (s.status = "CANCELLING" ∧ ns ∉ ["CANCELLED", "FAILED"]) ∨
              (s.status ∈ TaskKinds.finalStates ∧ ns ∈ TaskKinds.nonFinalStates))
    (hp : ∀ p, u.prompt = some p → utf8Len p ≤ 60000) :
    ∃ spec' s' ws',
      TaskKinds.update_task now spec (some s) ws u = .ok (spec', some s', ws') ∧
      s'.status = s.status ∧
      (∀ p, u.progress = some p → s'.progress = p) ∧
      (∀ r, u.result = some r → s'.result = r) ∧
      (∀ e, u.error_message = some e → s'.errorMessage = e) ∧
      (∀ t, u.title = some t → spec'.title = t) ∧
      (∀ p, u.prompt = some p → spec'.prompt = p) := by
  have hplen : TaskKinds.promptTooLong u.prompt = false := by
    cases hup : u.prompt with
    | none => rfl
    | some p =>
      simp [TaskKinds.promptTooLong, Nat.not_lt.mpr (hp p hup)]
  have happ : TaskKinds.update_task now spec (some s) ws u =
      .ok ({ title := u.title.getD spec.title, prompt := u.prompt.getD spec.prompt },
           some (TaskKinds.applyTimestamps now u (TaskKinds.applyStatusFields u s)),
           TaskKinds.applyGit u ws) := by
    simp [TaskKinds.update_task, hplen, TaskKinds.update_task_apply]
  obtain ⟨hts, htp, htr, hte⟩ :=
    applyTimestamps_fields now u (TaskKinds.applyStatusFields u s)
  refine ⟨_, _, _, happ, ?_, ?_, ?_, ?_, ?_, ?_⟩
  · rw [hts]
    simp only [TaskKinds.applyStatusFields, hns, guardedStatus_drop _ _ hguard]
    split <;> rfl
  · intro p hp'
    rw [htp]
    simp only [TaskKinds.applyStatusFields, hp']
    split <;> rfl
  · intro r hr
    rw [htr]
    simp only [TaskKinds.applyStatusFields, hr]
  · intro e he
    rw [hte]
    simp only [TaskKinds.applyStatusFields, he]
    rfl
  · intro t ht
    simp [ht]
  · intro p hp'
    simp [hp']

/-- Witness for C2: a CANCELLING task updated to RUNNING with progress 55
stays CANCELLING and gets progress 55. -/
theorem c2_update_task_guard_witness :
    ∃ spec' s' ws',
      TaskKinds.update_task 100 ⟨"t0", "p0"⟩
        (some ⟨"CANCELLING", 10, none, "", 5, none⟩) none
        { status := some "RUNNING", progress := some 55 } = .ok (spec', some s', ws') ∧
      s'.status = "CANCELLING" ∧ s'.progress = 55 := by
  obtain ⟨spec', s', ws', h1, h2, h3, -⟩ :=
    c2_update_task_guard 100 ⟨"t0", "p0"⟩ none
      { status := some "RUNNING", progress := some 55 }
      ⟨"CANCELLING", 10, none, "", 5, none⟩ "RUNNING" rfl
      (Or.inl ⟨rfl, by decide⟩) (fun p h => nomatch h)
  exact ⟨spec', s', ws', h1, by rw [h2], h3 55 rfl⟩

/-! ## C3 — idempotent completed-resume -/

/-- C3: for a COMPLETED subtask with stored result value `c` and offset
`o < len c`, the resume reply is exactly one content chunk `c[o:]` tagged
with offset `o` and `done:false`, then the terminal event with offset
`len c`, empty content, `done:true` and the stored result.  The reply is a
pure function of the stored result and offset, so every repetition with the
same offset is byte-identical. -/
theorem c3_resume_completed (c : String) (o : Nat) (h : o < c.length) :
    Chat.generate_completed (some ⟨c⟩) o =
      [{ offset := o, content := c.drop o, done := false, result := none },
       { offset := c.length, content := "", done := true, result := some ⟨c⟩ }] := by
  simp [Chat.generate_completed, h]

/-- Witness for C3 at content "hello world", offset 4. -/
theorem c3_resume_completed_witness :
    Chat.generate_completed (some ⟨"hello world"⟩) 4 =
      [{ offset := 4, content := "o world", done := false, result := none },
       { offset := 11, content := "", done := true, result := some ⟨"hello world"⟩ }] := by
  have h := c3_resume_completed "hello world" 4 (by decide)
  rw [h]
  rfl

/-! ## C4 — cancel finalization -/

/-- C4: cancelling a PENDING or RUNNING subtask marks it COMPLETED with
progress 100, result equal to the supplied partial content (empty when none
was supplied), a cleared error message and a stamped completion time, and
marks the parent Task (when found with a status section) COMPLETED with its
error message cleared. -/
theorem c4_cancel_finalization (now : Nat) (sub : Chat.SubRow)
    (t : Chat.TaskDoc) (ts : TaskKinds.TaskStatusRec) (partContent : Option String)
    (hsub : sub.status ∈ ["PENDING", "RUNNING"]) (ht : t.status = some ts) :
    let out := Chat.cancel_chat now sub (some t) partContent
    out.1.status = "COMPLETED" ∧
    out.1.progress = 100 ∧
    out.1.result = some ⟨partContent.getD ""⟩ ∧
    out.1.error_message = "" ∧
    out.1.completed_at = some now ∧
    (∃ ts', out.2.1 = some ⟨some ts', now⟩ ∧
      ts'.status = "COMPLETED" ∧ ts'.errorMessage = "") ∧
    out.2.2.success = true := by
  intro out
  have hres : (if Chat.strOptTruthy partContent then
      ({ value := partContent.getD "" } : Chat.ResVal)
      else { value := "" }) = { value := partContent.getD "" } := by
    cases partContent with
    | none => rfl
    | some s =>
      by_cases hs : s = ""
      · subst hs; rfl
      · simp [Chat.strOptTruthy, hs]
  have hout : out =
      ({ sub with status := "COMPLETED", progress := 100,
                  completed_at := some now, updated_at := now,
                  error_message := "", result := some ⟨partContent.getD ""⟩ },
       some ⟨some { ts with status := "COMPLETED", errorMessage := "",
                            updatedAt := now, completedAt := some now }, now⟩,
       { success := true, message := "Chat stopped successfully" }) := by
    show Chat.cancel_chat now sub (some t) partContent = _
    unfold Chat.cancel_chat
    rw [if_neg (not_not_intro hsub), hres]
    simp [ht]
  rw [hout]
  exact ⟨rfl, rfl, rfl, rfl, rfl, ⟨_, rfl, rfl, rfl⟩, rfl⟩

/-- Witness for C4: cancelling a RUNNING subtask with partial content
"partial ans". -/
theorem c4_cancel_finalization_witness :
    let out := Chat.cancel_chat 99
      ⟨9, 2, "RUNNING", 40, none, "boom", none, 1⟩
      (some ⟨some ⟨"RUNNING", 40, none, "boom", 1, none⟩, 1⟩)
      (some "partial ans")
    out.1.status = "COMPLETED" ∧
    out.1.progress = 100 ∧
    out.1.result = some ⟨"partial ans"⟩ ∧
    out.1.error_message = "" ∧
    out.1.completed_at = some 99 ∧
    (∃ ts', out.2.1 = some ⟨some ts', 99⟩ ∧
      ts'.status = "COMPLETED" ∧ ts'.errorMessage = "") ∧
    out.2.2.success = true :=
  c4_cancel_finalization 99
    ⟨9, 2, "RUNNING", 40, none, "boom", none, 1⟩
    ⟨some ⟨"RUNNING", 40, none, "boom", 1, none⟩, 1⟩
    ⟨"RUNNING", 40, none, "boom", 1, none⟩
    (some "partial ans") (by decide) rfl

/-! ## C5 — cancel on a non-cancellable subtask -/

/-- C5 counterexample: cancelling an already-COMPLETED subtask leaves the
state unchanged but reports `success: false` — not the no-op success the
claim states. -/
theorem c5_cancel_completed_reports_failure :
    Chat.cancel_chat 50
      ⟨9, 2, "COMPLETED", 100, some ⟨"done"⟩, "", some 7, 7⟩
      (some ⟨some ⟨"COMPLETED", 100, none, "", 7, some 7⟩, 7⟩)
      (some "x") =
      (⟨9, 2, "COMPLETED", 100, some ⟨"done"⟩, "", some 7, 7⟩,
       some ⟨some ⟨"COMPLETED", 100, none, "", 7, some 7⟩, 7⟩,
       { success := false, message := "Subtask is already in COMPLETED state" }) := by
  decide

/-- C5 amended: cancelling a subtask outside PENDING/RUNNING leaves the
subtask and the parent Task unchanged and returns a structured
`success: false` reply naming the existing state (no HTTP error is raised). -/
theorem c5_cancel_noncancellable_noop (now : Nat) (sub : Chat.SubRow)
    (task : Option Chat.TaskDoc) (partContent : Option String)
    (hsub : sub.status ∉ ["PENDING", "RUNNING"]) :
    Chat.cancel_chat now sub task partContent =
      (sub, task,
       { success := false,
         message := "Subtask is already in " ++ sub.status ++ " state" }) := by
  unfold Chat.cancel_chat
  rw [if_pos (by simpa using hsub)]

/-- Witness for the amended C5 on a FAILED subtask. -/
theorem c5_cancel_noncancellable_noop_witness :
    Chat.cancel_chat 50 ⟨9, 2, "FAILED", 10, none, "err", none, 3⟩ none none =
      (⟨9, 2, "FAILED", 10, none, "err", none, 3⟩, none,
       { success := false, message := "Subtask is already in FAILED state" }) :=
  c5_cancel_noncancellable_noop 50 ⟨9, 2, "FAILED", 10, none, "err", none, 3⟩
    none none (by decide)

/-! ## C6 — task copy semantics -/

/-- The copy loop produces one copied subtask per input subtask. -/
theorem copyLoop_fst_length (now nu nt ntm : Nat) (atts : List SharedTaskSvc.Attach) :
    ∀ (subs : List SharedTaskSvc.OrigSub) (nextId : Nat),
      (SharedTaskSvc.copyLoop now nu nt ntm atts nextId subs).1.length = subs.length
  | [], _ => rfl
  | _ :: rest, nextId => by
    simp [SharedTaskSvc.copyLoop, copyLoop_fst_length now nu nt ntm atts rest (nextId + 1)]

/-- The i-th copied subtask is the copy of the i-th input subtask under the
i-th fresh id. -/
theorem copyLoop_fst_get (now nu nt ntm : Nat) (atts : List SharedTaskSvc.Attach) :
    ∀ (subs : List SharedTaskSvc.OrigSub) (nextId i : Nat) (hi : i < subs.length),
      (SharedTaskSvc.copyLoop now nu nt ntm atts nextId subs).1[i]? =
        some (SharedTaskSvc.copySubtask now nu nt ntm (nextId + i) (subs.get ⟨i, hi⟩))
  | s :: rest, nextId, 0, _ => by
    simp [SharedTaskSvc.copyLoop]
  | s :: rest, nextId, i + 1, hi => by
    have ih := copyLoop_fst_get now nu nt ntm atts rest (nextId + 1) i
      (by simpa using Nat.lt_of_succ_lt_succ hi)
    simp only [SharedTaskSvc.copyLoop, List.getElem?_cons_succ, List.get_cons_succ]
    rw [ih]
    ring_nf

/-- Every attachment of a copied subtask is duplicated, rebound to the copy
and the target user, all content fields intact. -/
theorem copyLoop_snd_mem (now nu nt ntm : Nat) (atts : List SharedTaskSvc.Attach) :
    ∀ (subs : List SharedTaskSvc.OrigSub) (nextId i : Nat) (hi : i < subs.length)
      (a : SharedTaskSvc.Attach), a ∈ atts →
      a.subtask_id = (subs.get ⟨i, hi⟩).id →
      SharedTaskSvc.copyAttachment now nu (nextId + i) a ∈
        (SharedTaskSvc.copyLoop now nu nt ntm atts nextId subs).2
  | s :: rest, nextId, 0, _, a, ha, hid => by
    simp only [SharedTaskSvc.copyLoop]
    apply List.mem_append_left
    apply List.mem_map_of_mem
    simp only [List.mem_filter]
    exact ⟨ha, by simp [hid]⟩
  | s :: rest, nextId, i + 1, hi, a, ha, hid => by
    have ih := copyLoop_snd_mem now nu nt ntm atts rest (nextId + 1) i
      (by simpa using Nat.lt_of_succ_lt_succ hi) a ha (by simpa using hid)
    simp only [SharedTaskSvc.copyLoop]
    apply List.mem_append_right
    have : nextId + (i + 1) = nextId + 1 + i := by ring
    rw [this]
    exact ih

/-- C6 counterexample: copying a task whose single subtask has executor
namespace "ns1" produces a copy whose executor namespace is still "ns1",
not the cleared empty string the claim requires. -/
theorem c6_copy_keeps_executor_namespace :
    ((SharedTaskSvc._copy_task_with_subtasks 100 2 200 5 1000
        [⟨7, "t", [1], "ASSISTANT", "ns1", "ex1", "", 1, 0, "RUNNING", 40, some "r", ""⟩]
        []).1.map (fun c => c.executor_namespace)) = ["ns1"] ∧ ("ns1" : String) ≠ "" :=
  ⟨rfl, by decide⟩

/-- C6 amended: every original subtask whose status is not DELETE is
duplicated into the target user's namespace with a fresh identity, status
forced to COMPLETED, progress forced to 100, the executor name cleared — the
executor namespace is carried over from the original, not cleared — and each
of its attachments duplicated with all content fields (including the binary
data) intact. -/
theorem c6_copy_semantics (now nu nt ntm baseId : Nat)
    (subs : List SharedTaskSvc.OrigSub) (atts : List SharedTaskSvc.Attach) :
    (SharedTaskSvc._copy_task_with_subtasks now nu nt ntm baseId subs atts).1.length =
      (SharedTaskSvc.keptSubtasks subs).length ∧
    (∀ i (hi : i < (SharedTaskSvc.keptSubtasks subs).length),
      ∃ c, (SharedTaskSvc._copy_task_with_subtasks now nu nt ntm baseId subs atts).1[i]? =
          some c ∧
        c.id = baseId + i ∧ c.user_id = nu ∧ c.task_id = nt ∧ c.team_id = ntm ∧
        c.status = "COMPLETED" ∧ c.progress = 100 ∧
        c.executor_name = "" ∧
        c.executor_namespace = ((SharedTaskSvc.keptSubtasks subs).get ⟨i, hi⟩).executor_namespace ∧
        c.role = ((SharedTaskSvc.keptSubtasks subs).get ⟨i, hi⟩).role ∧
        c.message_id = ((SharedTaskSvc.keptSubtasks subs).get ⟨i, hi⟩).message_id ∧
        c.parent_id = ((SharedTaskSvc.keptSubtasks subs).get ⟨i, hi⟩).parent_id ∧
        c.prompt = ((SharedTaskSvc.keptSubtasks subs).get ⟨i, hi⟩).prompt ∧
        c.result = ((SharedTaskSvc.keptSubtasks subs).get ⟨i, hi⟩).result) ∧
    (∀ i (hi : i < (SharedTaskSvc.keptSubtasks subs).length)
        (a : SharedTaskSvc.Attach), a ∈ atts →
      a.subtask_id = ((SharedTaskSvc.keptSubtasks subs).get ⟨i, hi⟩).id →
      { a with subtask_id := baseId + i, user_id := nu, created_at := now } ∈
        (SharedTaskSvc._copy_task_with_subtasks now nu nt ntm baseId subs atts).2) := by
  refine ⟨copyLoop_fst_length now nu nt ntm atts _ baseId, ?_, ?_⟩
  · intro i hi
    refine ⟨_, copyLoop_fst_get now nu nt ntm atts _ baseId i hi, ?_⟩
    exact ⟨rfl, rfl, rfl, rfl, rfl, rfl, rfl, rfl, rfl, rfl, rfl, rfl, rfl⟩
  · intro i hi a ha hid
    exact copyLoop_snd_mem now nu nt ntm atts _ baseId i hi a ha hid

/-- Witness for the amended C6 at a one-subtask, one-attachment task. -/
theorem c6_copy_semantics_witness :
    ∃ c, (SharedTaskSvc._copy_task_with_subtasks 100 2 200 5 1000
        [⟨7, "t", [1], "ASSISTANT", "ns1", "ex1", "q", 1, 0, "RUNNING", 40, some "r", ""⟩]
        [⟨7, 1, "f.txt", "txt", 3, "text/plain", [1, 2, 3], "", "hi", 2, "ok", "", 11⟩]).1[0]? =
        some c ∧
      c.status = "COMPLETED" ∧ c.progress = 100 ∧ c.executor_name = "" ∧
      c.executor_namespace = "ns1" ∧ c.result = some "r" ∧
      (⟨1000, 2, "f.txt", "txt", 3, "text/plain", [1, 2, 3], "", "hi", 2, "ok", "", 100⟩ :
          SharedTaskSvc.Attach) ∈
        (SharedTaskSvc._copy_task_with_subtasks 100 2 200 5 1000
          [⟨7, "t", [1], "ASSISTANT", "ns1", "ex1", "q", 1, 0, "RUNNING", 40, some "r", ""⟩]
          [⟨7, 1, "f.txt", "txt", 3, "text/plain", [1, 2, 3], "", "hi", 2, "ok", "", 11⟩]).2 := by
  obtain ⟨-, h2, h3⟩ := c6_copy_semantics 100 2 200 5 1000
    [⟨7, "t", [1], "ASSISTANT", "ns1", "ex1", "q", 1, 0, "RUNNING", 40, some "r", ""⟩]
    [⟨7, 1, "f.txt", "txt", 3, "text/plain", [1, 2, 3], "", "hi", 2, "ok", "", 11⟩]
  obtain ⟨c, hc, hcf⟩ := h2 0 (by decide)
  obtain ⟨-, -, -, -, hst, hpr, hen, hens, -, -, -, -, hres⟩ := hcf
  refine ⟨c, hc, hst, hpr, hen, hens, hres, ?_⟩
  exact h3 0 (by decide)
    ⟨7, 1, "f.txt", "txt", 3, "text/plain", [1, 2, 3], "", "hi", 2, "ok", "", 11⟩
    (by decide) (by decide)

/-! ## C7 — 60,000-byte prompt cap -/

theorem utf8Len_longPrompt : utf8Len longPrompt = 60001 := by
  have h1 : charUtf8Size 'a' = 1 := by decide
  show (List.map charUtf8Size (List.replicate 60001 'a')).sum = 60001
  rw [List.map_replicate, h1, List.sum_replicate, smul_eq_mul, mul_one]

/-- C7 counterexample: appending to an existing task with a prompt of 60,001
UTF-8 bytes is accepted and creates the subtask group — the append branch
performs no prompt-length validation, refuting the claim that both branches
reject over-long prompts. -/
theorem c7_append_branch_accepts_long_prompt :
    utf8Len longPrompt > 60000 ∧
    (TaskKinds.create_task_or_append
        ⟨0, 1, 1, true,
         some ⟨some ⟨"COMPLETED", 100, none, "", 0, some 0⟩,
               some [("autoDeleteExecutor", "false"), ("source", "chat_shell")], 0⟩,
         true, "pipeline", [10], [⟨1, "USER", "", ""⟩]⟩
        longPrompt "T").map
      (fun o => o.newSubtasks.map (fun s => (s.role, s.message_id, s.parent_id))) =
      .ok [("USER", 2, 1), ("ASSISTANT", 3, 1)] := by
  constructor
  · rw [utf8Len_longPrompt]
    decide
  · rfl

/-- C7 amended: only the new-task branch of `create_task_or_append` rejects a
prompt whose UTF-8 encoding exceeds 60,000 bytes; there the 400 error is
raised before any Workspace, Task or Subtask is built (the append branch
performs no prompt-length check). -/
theorem c7_new_task_prompt_cap (env : TaskKinds.CreateEnv) (prompt title : String)
    (hvalid : env.taskIdValid = true) (hex : env.existing = none)
    (hteam : env.teamFound = true) (hp : prompt ≠ "")
    (hlen : utf8Len prompt > 60000) :
    TaskKinds.create_task_or_append env prompt title =
      .error (.http 400
        "Prompt content is too long. Maximum allowed size is 60000 bytes in UTF-8 encoding.") := by
  unfold TaskKinds.create_task_or_append
  rw [hvalid, hex]
  simp [hteam, hp, hlen]

/-- Witness for the amended C7: a fresh-task call with the 60,001-byte prompt
is rejected with the 400 error. -/
theorem c7_new_task_prompt_cap_witness :
    TaskKinds.create_task_or_append ⟨0, 1, 1, true, none, true, "pipeline", [10], []⟩
      longPrompt "T" =
      .error (.http 400
        "Prompt content is too long. Maximum allowed size is 60000 bytes in UTF-8 encoding.") :=
  c7_new_task_prompt_cap ⟨0, 1, 1, true, none, true, "pipeline", [10], []⟩
    longPrompt "T" rfl rfl rfl (by decide) (by rw [utf8Len_longPrompt]; decide)

/-! ## C8 — task id allocation protocol -/

/-- `find?` skips a prefix in which nothing matches. -/
theorem find?_append_of_none {α : Type} (p : α → Bool) :
    ∀ (l1 l2 : List α), l1.find? p = none → (l1 ++ l2).find? p = l2.find? p
  | [], _, _ => rfl
  | a :: l1, l2, h => by
    by_cases hp : p a
    · rw [List.find?_cons_of_pos _ hp] at h
      exact absurd h (by simp)
    · rw [List.find?_cons_of_neg _ hp] at h
      rw [List.cons_append, List.find?_cons_of_neg _ hp]
      exact find?_append_of_none p l1 l2 h

/-- C8: two sequential allocations by the same user without an intervening
validate return the same id (the pending Placeholder is reused); and
validate deletes-and-accepts a Placeholder, accepts any other kind
untouched, and rejects an unknown id. -/
theorem c8_allocation_and_validation :
    (∀ (s : TaskKinds.KindStore) (uid : Nat),
      (TaskKinds.create_task_id s uid).1 =
        (TaskKinds.create_task_id (TaskKinds.create_task_id s uid).2 uid).1) ∧
    (∀ (s : TaskKinds.KindStore) (tid : Nat) (r : TaskKinds.KindRow),
      s.rows.find? (fun r => r.id == tid) = some r → r.kind = "Placeholder" →
      TaskKinds.validate_task_id s tid =
        (true, { s with rows := s.rows.filter (fun r => r.id ≠ tid) })) ∧
    (∀ (s : TaskKinds.KindStore) (tid : Nat) (r : TaskKinds.KindRow),
      s.rows.find? (fun r => r.id == tid) = some r → r.kind ≠ "Placeholder" →
      TaskKinds.validate_task_id s tid = (true, s)) ∧
    (∀ (s : TaskKinds.KindStore) (tid : Nat),
      s.rows.find? (fun r => r.id == tid) = none →
      TaskKinds.validate_task_id s tid = (false, s)) := by
  refine ⟨?_, ?_, ?_, ?_⟩
  · intro s uid
    cases hf : s.rows.find?
        (fun r => r.user_id == uid && r.kind == "Placeholder" && r.is_active == false) with
    | some r =>
      have e1 : TaskKinds.create_task_id s uid = (r.id, s) := by
        unfold TaskKinds.create_task_id
        rw [hf]
      rw [e1, e1]
    | none =>
      have e1 : TaskKinds.create_task_id s uid =
          (s.nextId, ⟨s.nextId + 1, s.rows ++ [⟨s.nextId, uid, "Placeholder", false⟩]⟩) := by
        unfold TaskKinds.create_task_id
        rw [hf]
      have h2 : ((s.rows ++ [(⟨s.nextId, uid, "Placeholder", false⟩ : TaskKinds.KindRow)]).find?
          (fun r => r.user_id == uid && r.kind == "Placeholder" && r.is_active == false)) =
          some ⟨s.nextId, uid, "Placeholder", false⟩ := by
        rw [find?_append_of_none _ _ _ hf]
        simp [List.find?]
      have e2 : TaskKinds.create_task_id
          ⟨s.nextId + 1, s.rows ++ [⟨s.nextId, uid, "Placeholder", false⟩]⟩ uid =
          (s.nextId, ⟨s.nextId + 1, s.rows ++ [⟨s.nextId, uid, "Placeholder", false⟩]⟩) := by
        unfold TaskKinds.create_task_id
        rw [h2]
      rw [e1]
      show s.nextId = (TaskKinds.create_task_id
        ⟨s.nextId + 1, s.rows ++ [⟨s.nextId, uid, "Placeholder", false⟩]⟩ uid).1
      rw [e2]
  · intro s tid r hf hk
    simp [TaskKinds.validate_task_id, hf, hk]
  · intro s tid r hf hk
    simp [TaskKinds.validate_task_id, hf, hk]
  · intro s tid hf
    simp [TaskKinds.validate_task_id, hf]

/-- Witness for C8: a double allocation on an empty store, and the three
validate cases on concrete stores. -/
theorem c8_allocation_and_validation_witness :
    (TaskKinds.create_task_id ⟨1, []⟩ 7).1 =
      (TaskKinds.create_task_id (TaskKinds.create_task_id ⟨1, []⟩ 7).2 7).1 ∧
    TaskKinds.validate_task_id ⟨2, [⟨1, 7, "Placeholder", false⟩]⟩ 1 = (true, ⟨2, []⟩) ∧
    TaskKinds.validate_task_id ⟨2, [⟨1, 7, "Task", true⟩]⟩ 1 =
      (true, ⟨2, [⟨1, 7, "Task", true⟩]⟩) ∧
    TaskKinds.validate_task_id ⟨2, [⟨1, 7, "Task", true⟩]⟩ 5 =
      (false, ⟨2, [⟨1, 7, "Task", true⟩]⟩) := by
  obtain ⟨h1, h2, h3, h4⟩ := c8_allocation_and_validation
  exact ⟨h1 ⟨1, []⟩ 7,
    h2 ⟨2, [⟨1, 7, "Placeholder", false⟩]⟩ 1 ⟨1, 7, "Placeholder", false⟩ (by decide) rfl,
    h3 ⟨2, [⟨1, 7, "Task", true⟩]⟩ 1 ⟨1, 7, "Task", true⟩ (by decide) (by decide),
    h4 ⟨2, [⟨1, 7, "Task", true⟩]⟩ 5 (by decide)⟩

/-! ## C9 — share token round trip -/

theorem hexVal_hexDigit (n : Nat) (h : n < 16) :
    ShareToken.hexVal (ShareToken.hexDigit n) = some n := by
  interval_cases n <;> decide

theorem ne_percent_of_quoteSafe (c : Char) (h : ShareToken.quoteSafe c = true) :
    c ≠ '%' := by
  intro he
  subst he
  exact absurd h (by decide)

/-- Scanning an unescaped character. -/
theorem unquote_cons_of_ne (c : Char) (l : List Char) (h : c ≠ '%') :
    ShareToken.unquote (c :: l) = c :: ShareToken.unquote l := by
  rw [ShareToken.unquote.eq_def]
  dsimp only
  rw [if_neg h]

/-- Decoding one `%HH` escape. -/
theorem unquote_escape (a b : Nat) (l : List Char) (ha : a < 16) (hb : b < 16) :
    ShareToken.unquote ('%' :: ShareToken.hexDigit a :: ShareToken.hexDigit b :: l) =
      Char.ofNat (16 * a + b) :: ShareToken.unquote l := by
  rw [ShareToken.unquote.eq_def]
  dsimp only
  rw [if_pos rfl]
  simp [hexVal_hexDigit a ha, hexVal_hexDigit b hb]

/-- URL-unescaping inverts URL-escaping on ASCII strings. -/
theorem unquote_quote (l : List Char) (h : ∀ c ∈ l, c.toNat < 128) :
    ShareToken.unquote (ShareToken.quote l) = l := by
  induction l with
  | nil =>
    rw [show ShareToken.quote [] = [] from rfl, ShareToken.unquote.eq_def]
  | cons c rest ih =>
    have hc : c.toNat < 128 := h c (List.mem_cons_self c rest)
    have hrest : ∀ x ∈ rest, x.toNat < 128 := fun x hx => h x (List.mem_cons_of_mem c hx)
    by_cases hs : ShareToken.quoteSafe c
    · have hq : ShareToken.quote (c :: rest) = c :: ShareToken.quote rest := by
        simp [ShareToken.quote, ShareToken.quoteChar, hs]
      rw [hq, unquote_cons_of_ne c _ (ne_percent_of_quoteSafe c hs), ih hrest]
    · have hq : ShareToken.quote (c :: rest) =
          '%' :: ShareToken.hexDigit (c.toNat / 16) ::
            ShareToken.hexDigit (c.toNat % 16) :: ShareToken.quote rest := by
        simp [ShareToken.quote, ShareToken.quoteChar, hs]
      rw [hq, unquote_escape _ _ _ (by omega) (by omega), ih hrest, Nat.div_add_mod,
        Char.ofNat_toNat]

/-- Every decimal digit character parses back, differs from `#`, and is
ASCII. -/
theorem digitChar_facts (d : Nat) (h : d < 10) :
    ShareToken.digitVal (Char.ofNat (48 + d)) = some d ∧
    Char.ofNat (48 + d) ≠ '#' ∧ (Char.ofNat (48 + d)).toNat < 128 := by
  interval_cases d <;> exact ⟨by decide, by decide, by decide⟩

/-- Every character of a rendered decimal number is a digit character. -/
theorem toDigitsAux_mem :
    ∀ (fuel n : Nat), n < fuel →
      ∀ c ∈ ShareToken.toDigitsAux fuel n, ∃ d, d < 10 ∧ c = Char.ofNat (48 + d)
  | 0, n, h => absurd h (Nat.not_lt_zero n)
  | fuel + 1, n, h => by
    intro c hc
    unfold ShareToken.toDigitsAux at hc
    by_cases h10 : n < 10
    · rw [if_pos h10] at hc
      simp only [List.mem_singleton] at hc
      exact ⟨n, h10, hc⟩
    · rw [if_neg h10] at hc
      rcases List.mem_append.mp hc with hm | hm
      · have h0 : n / 10 < n := Nat.div_lt_self (by omega) (by norm_num)
        exact toDigitsAux_mem fuel (n / 10) (Nat.lt_of_lt_of_le h0 (by omega)) c hm
      · simp only [List.mem_singleton] at hm
        exact ⟨n % 10, Nat.mod_lt n (by decide), hm⟩

theorem toDigitsAux_ne_nil (fuel n : Nat) (h : n < fuel) :
    ShareToken.toDigitsAux fuel n ≠ [] := by
  cases fuel with
  | zero => exact absurd h (Nat.not_lt_zero n)
  | succ fuel =>
    unfold ShareToken.toDigitsAux
    by_cases h10 : n < 10
    · rw [if_pos h10]
      exact List.cons_ne_nil _ _
    · rw [if_neg h10]
      simp

/-- The decimal parse folds a rendered number back to its value, for any
initial accumulator. -/
theorem foldl_toDigitsAux :
    ∀ (fuel n : Nat), n < fuel → ∀ (a : Nat),
      (ShareToken.toDigitsAux fuel n).foldl ShareToken.pyIntStep (some a) =
        some (a * 10 ^ (ShareToken.toDigitsAux fuel n).length + n)
  | 0, n, h, _ => absurd h (Nat.not_lt_zero n)
  | fuel + 1, n, h, a => by
    unfold ShareToken.toDigitsAux
    by_cases h10 : n < 10
    · rw [if_pos h10]
      simp [ShareToken.pyIntStep, (digitChar_facts n h10).1]
      ring
    · rw [if_neg h10]
      have h0 : n / 10 < n := Nat.div_lt_self (by omega) (by norm_num)
      rw [List.foldl_append,
        foldl_toDigitsAux fuel (n / 10) (Nat.lt_of_lt_of_le h0 (by omega)) a]
      simp [ShareToken.pyIntStep, (digitChar_facts (n % 10) (Nat.mod_lt n (by decide))).1,
        List.length_append]
      rw [pow_succ]
      have hmod := Nat.div_add_mod n 10
      ring_nf
      omega

theorem pyInt_toDigits (n : Nat) : ShareToken.pyInt (ShareToken.toDigits n) = some n := by
  unfold ShareToken.pyInt ShareToken.toDigits
  rw [if_neg (by
    simp only [List.isEmpty_iff]
    exact toDigitsAux_ne_nil (n + 1) n (Nat.lt_succ_self n))]
  rw [foldl_toDigitsAux (n + 1) n (Nat.lt_succ_self n) 0]
  simp

theorem toDigits_no_hash (n : Nat) : '#' ∉ ShareToken.toDigits n := by
  intro hmem
  obtain ⟨d, hd, he⟩ := toDigitsAux_mem (n + 1) n (Nat.lt_succ_self n) '#' hmem
  exact absurd he.symm (digitChar_facts d hd).2.1

theorem toDigits_ascii (n : Nat) : ∀ c ∈ ShareToken.toDigits n, c.toNat < 128 := by
  intro c hc
  obtain ⟨d, hd, he⟩ := toDigitsAux_mem (n + 1) n (Nat.lt_succ_self n) c hc
  rw [he]
  exact (digitChar_facts d hd).2.2

/-- Splitting at the first `#` recovers the two halves when the left half is
`#`-free. -/
theorem splitHash_append (l1 l2 : List Char) (h : '#' ∉ l1) :
    ShareToken.splitHash (l1 ++ '#' :: l2) = some (l1, l2) := by
  induction l1 with
  | nil => simp [ShareToken.splitHash]
  | cons c rest ih =>
    have hc : c ≠ '#' := fun e => h (e ▸ List.mem_cons_self c rest)
    have hrest : '#' ∉ rest := fun hx => h (List.mem_cons_of_mem c hx)
    simp [ShareToken.splitHash, hc, ih hrest]

/-- C9: decoding a generated share token with the same key recovers exactly
the encoded user id and task id.  The cipher (PKCS7 pad + AES-CBC + base64,
all in the external cryptography library) enters as an abstract encoder `E`
with decoder `D`; the hypotheses state its contract at the encoded payload:
same-key decryption inverts encryption, and the base64 ciphertext is
ASCII. -/
theorem c9_share_token_roundtrip
    (E : List Char → List Char) (D : List Char → Option (List Char)) (u t : Nat)
    (hED : D (E (ShareToken.toDigits u ++ '#' :: ShareToken.toDigits t)) =
      some (ShareToken.toDigits u ++ '#' :: ShareToken.toDigits t))
    (hA : ∀ c ∈ E (ShareToken.toDigits u ++ '#' :: ShareToken.toDigits t), c.toNat < 128) :
    ShareToken.decode_share_token D (ShareToken.generate_share_token E u t) =
      some (u, t) := by
  unfold ShareToken.decode_share_token ShareToken.generate_share_token
  rw [unquote_quote _ hA, hED]
  simp only [splitHash_append _ _ (toDigits_no_hash u), pyInt_toDigits]

/-- Witness for C9 with the identity cipher at user 3, task 7. -/
theorem c9_share_token_roundtrip_witness :
    ShareToken.decode_share_token (fun l => some l)
      (ShareToken.generate_share_token (fun l => l) 3 7) = some (3, 7) :=
  c9_share_token_roundtrip (fun l => l) (fun l => some l) 3 7 rfl (by decide)

/-! ## C10 — missing autoDeleteExecutor label raises KeyError -/

/-- C10: appending to an existing task whose metadata labels are non-empty
but lack the "autoDeleteExecutor" key raises an unhandled `KeyError` (the
label is read by direct dict indexing), not an HTTP error of the taxonomy. -/
theorem c10_missing_autodelete_label_keyerror (env : TaskKinds.CreateEnv)
    (ex : TaskKinds.ExistingTask) (s : TaskKinds.TaskStatusRec)
    (ls : List (String × String)) (prompt title : String)
    (hvalid : env.taskIdValid = true) (hex : env.existing = some ex)
    (hs : ex.status = some s)
    (hmem : s.status ∈ ["COMPLETED", "FAILED", "CANCELLED"])
    (hlabels : ex.labels = some ls) (hne : ls ≠ [])
    (hkey : lookupLabel ls "autoDeleteExecutor" = none) :
    TaskKinds.create_task_or_append env prompt title =
      .error (.keyErr "autoDeleteExecutor") := by
  have hlt : labelsTruthy (some ls) = true := by
    cases ls with
    | nil => exact absurd rfl hne
    | cons a l => rfl
  simp only [List.mem_cons, List.mem_singleton, List.not_mem_nil, or_false] at hmem
  unfold TaskKinds.create_task_or_append
  rcases hmem with h | h | h <;>
    simp [hvalid, hex, hs, h, hlt, hlabels, hkey]

/-- Witness for C10 at a COMPLETED task whose labels hold only "taskType". -/
theorem c10_missing_autodelete_label_keyerror_witness :
    TaskKinds.create_task_or_append
      ⟨0, 1, 1, true,
       some ⟨some ⟨"COMPLETED", 100, none, "", 0, some 0⟩,
             some [("taskType", "chat")], 0⟩,
       true, "pipeline", [10], []⟩ "hi" "T" =
      .error (.keyErr "autoDeleteExecutor") :=
  c10_missing_autodelete_label_keyerror
    ⟨0, 1, 1, true,
     some ⟨some ⟨"COMPLETED", 100, none, "", 0, some 0⟩,
           some [("taskType", "chat")], 0⟩,
     true, "pipeline", [10], []⟩
    ⟨some ⟨"COMPLETED", 100, none, "", 0, some 0⟩, some [("taskType", "chat")], 0⟩
    ⟨"COMPLETED", 100, none, "", 0, some 0⟩
    [("taskType", "chat")] "hi" "T" rfl rfl rfl (by decide) rfl (by decide) (by decide)

end Wegent
